import Mathlib

/-
  Verification of the biquad audio-filter core (src/src/biquad.c, hpf.c,
  lpf.c, parametric.c, mlir_biquad.cpp) against its specification.

  The per-sample recurrence and the channel dispatch are embedded over the
  rationals (every finite double value is a rational, and the C code performs
  only field operations and order comparisons on doubles); the coefficient
  design algorithms, which use tan, sqrt, pi and powers of ten, are embedded
  over the reals.  Buffers are lists of samples; the in-place mutation of the
  C code becomes explicit state passing.
-/

/-- The BiQuad struct of include/biquad.h: five recurrence coefficients,
two wet/dry mix coefficients and four delay elements. -/
structure BiQuad (α : Type) where
  a0 : α
  a1 : α
  a2 : α
  b1 : α
  b2 : α
  c0 : α
  d0 : α
  xz1 : α
  xz2 : α
  yz1 : α
  yz2 : α
deriving DecidableEq, Repr

/-- FLT_MIN_PLUS of biquad.h, the literal 1.175494351e-38 as an exact
rational. -/
def FLT_MIN_PLUS : ℚ := 1175494351 / 10 ^ 47

/-- FLT_MIN_MINUS of biquad.h, the literal -1.175494351e-38. -/
def FLT_MIN_MINUS : ℚ := -(1175494351 / 10 ^ 47)

/-- biquad_flush_delays of biquad.c (non-null branch): zero the four delay
elements, leave the coefficients untouched. -/
def biquad_flush_delays (bq : BiQuad ℚ) : BiQuad ℚ :=
  { bq with xz1 := 0, xz2 := 0, yz1 := 0, yz2 := 0 }

/-- biquad_init of biquad.c (non-null branch): zero all coefficients, set
c0 = 1, d0 = 0, flush the delays. -/
def biquad_init (bq : BiQuad ℚ) : BiQuad ℚ :=
  biquad_flush_delays
    { bq with a0 := 0, a1 := 0, a2 := 0, b1 := 0, b2 := 0, c0 := 1, d0 := 0 }

/-- biquad_process of biquad.c (non-null branch).  Computes
yn = a0*x + a1*xz1 + a2*xz2 - b1*yz1 - b2*yz2, applies the two sequential
underflow checks, shuffles the delays (the y delays before the x delays,
storing the post-clamp yn into yz1) and returns yn together with the
mutated struct. -/
def biquad_process (bq : BiQuad ℚ) (input : ℚ) : ℚ × BiQuad ℚ :=
  let yn0 := bq.a0 * input + bq.a1 * bq.xz1 + bq.a2 * bq.xz2 -
             bq.b1 * bq.yz1 - bq.b2 * bq.yz2
  let yn1 := if yn0 > 0 ∧ yn0 < FLT_MIN_PLUS then 0 else yn0
  let yn := if yn1 < 0 ∧ yn1 > FLT_MIN_MINUS then 0 else yn1
  (yn, { bq with yz2 := bq.yz1, yz1 := yn, xz2 := bq.xz1, xz1 := input })

/-- biquad_process of biquad.c including its null-pointer guard: a null
unit returns the input unchanged and there is no state to mutate. -/
def biquad_process_opt : Option (BiQuad ℚ) → ℚ → ℚ × Option (BiQuad ℚ)
  | none, input => (input, none)
  | some bq, input =>
    let r := biquad_process bq input
    (r.1, some r.2)

/-- Sequential application of biquad_process to a list of samples: the
output list and the final state. -/
def biquad_run (bq : BiQuad ℚ) : List ℚ → List ℚ × BiQuad ℚ
  | [] => ([], bq)
  | x :: xs =>
    let p := biquad_process bq x
    let r := biquad_run p.2 xs
    (p.1 :: r.1, r.2)

/-- mlir_biquad_process of mlir_biquad.cpp (non-null branch): the JIT kernel
computes the raw recurrence value, the wrapper then updates the delay state
with the UNclamped yn and only afterwards applies the underflow checks to
the value it returns. -/
def mlir_biquad_process (bq : BiQuad ℚ) (input : ℚ) : ℚ × BiQuad ℚ :=
  let yn := bq.a0 * input + bq.a1 * bq.xz1 + bq.a2 * bq.xz2 -
            bq.b1 * bq.yz1 - bq.b2 * bq.yz2
  let bq' := { bq with xz2 := bq.xz1, xz1 := input, yz2 := bq.yz1, yz1 := yn }
  let yn1 := if yn > 0 ∧ yn < FLT_MIN_PLUS then 0 else yn
  let yn2 := if yn1 < 0 ∧ yn1 > FLT_MIN_MINUS then 0 else yn1
  (yn2, bq')

/-- Sequential application of mlir_biquad_process to a list of samples. -/
def mlir_run (bq : BiQuad ℚ) : List ℚ → List ℚ × BiQuad ℚ
  | [] => ([], bq)
  | x :: xs =>
    let p := mlir_biquad_process bq x
    let r := mlir_run p.2 xs
    (p.1 :: r.1, r.2)

/-- The scf.for loop generated by addBufferProcessFunction of
mlir_biquad.cpp: state (xz1, xz2, yz1, yz2) is threaded through the loop,
each iteration stores the raw recurrence value yn to the output buffer and
yields the new state (input, xz1, yn, yz1).  No underflow check anywhere in
the loop. -/
def mlir_buffer_loop (a0 a1 a2 b1 b2 : ℚ) :
    ℚ × ℚ × ℚ × ℚ → List ℚ → List ℚ × (ℚ × ℚ × ℚ × ℚ)
  | s, [] => ([], s)
  | (xz1, xz2, yz1, yz2), input :: rest =>
    let yn := a0 * input + a1 * xz1 + a2 * xz2 - b1 * yz1 - b2 * yz2
    let r := mlir_buffer_loop a0 a1 a2 b1 b2 (input, xz1, yn, yz1) rest
    (yn :: r.1, r.2)

/-- mlir_biquad_process_buffer of mlir_biquad.cpp (JIT path, non-null
branch): pack the delay state, run the JIT loop, unpack the final state,
and apply the underflow checks to the final yz1 only. -/
def mlir_biquad_process_buffer (bq : BiQuad ℚ) (input : List ℚ) :
    List ℚ × BiQuad ℚ :=
  let r := mlir_buffer_loop bq.a0 bq.a1 bq.a2 bq.b1 bq.b2
             (bq.xz1, bq.xz2, bq.yz1, bq.yz2) input
  let xz1 := r.2.1
  let xz2 := r.2.2.1
  let yz1 := r.2.2.2.1
  let yz2 := r.2.2.2.2
  let yz1a := if yz1 > 0 ∧ yz1 < FLT_MIN_PLUS then 0 else yz1
  let yz1b := if yz1a < 0 ∧ yz1a > FLT_MIN_MINUS then 0 else yz1a
  (r.1, { bq with xz1 := xz1, xz2 := xz2, yz1 := yz1b, yz2 := yz2 })

/-- The AudioBuffer struct of audio_io.h; a null data pointer is modelled
by none, length is the length of the list. -/
structure AudioBuffer where
  data : Option (List ℚ)
  sample_rate : ℕ
  channels : ℕ
deriving DecidableEq, Repr

/-- The HPFFilter struct of hpf.h: two biquad lanes and the cutoff. -/
structure HPFFilter where
  left : BiQuad ℚ
  right : BiQuad ℚ
  frequency : ℚ
deriving DecidableEq, Repr

/-- The LPFFilter struct of lpf.h. -/
structure LPFFilter where
  left : BiQuad ℚ
  right : BiQuad ℚ
  frequency : ℚ
deriving DecidableEq, Repr

/-- The ParametricFilter struct of parametric.h. -/
structure ParametricFilter where
  left : BiQuad ℚ
  right : BiQuad ℚ
  frequency : ℚ
  gain : ℚ
  q : ℚ
deriving DecidableEq, Repr

/-- The per-sample body of hpf/lpf/parametric_process_channel: run the
biquad and write back filtered*c0 + input*d0. -/
def process_channel_run (f : BiQuad ℚ) : List ℚ → List ℚ × BiQuad ℚ
  | [] => ([], f)
  | input :: rest =>
    let p := biquad_process f input
    let r := process_channel_run p.2 rest
    ((p.1 * p.2.c0 + input * p.2.d0) :: r.1, r.2)

/-- The stereo loop of hpf/lpf/parametric_process_buffer (channels == 2):
indices advance two at a time, the even index goes through the left lane,
the odd index through the right lane guarded by the bounds check
i + 1 < length. -/
def process_stereo (left right : BiQuad ℚ) :
    List ℚ → List ℚ × BiQuad ℚ × BiQuad ℚ
  | [] => ([], left, right)
  | [x] =>
    let p := biquad_process left x
    ([p.1 * p.2.c0 + x * p.2.d0], p.2, right)
  | x :: y :: rest =>
    let p := biquad_process left x
    let q := biquad_process right y
    let r := process_stereo p.2 q.2 rest
    ((p.1 * p.2.c0 + x * p.2.d0) :: (q.1 * q.2.c0 + y * q.2.d0) :: r.1, r.2)

/-- The multi-channel loop of hpf/lpf/parametric_process_buffer
(channels >= 3): channel = i % channels, the lane is left when
channel % 2 == 0 and right otherwise. -/
def process_multi (channels : ℕ) :
    BiQuad ℚ → BiQuad ℚ → ℕ → List ℚ → List ℚ × BiQuad ℚ × BiQuad ℚ
  | left, right, _, [] => ([], left, right)
  | left, right, i, input :: rest =>
    if i % channels % 2 = 0 then
      let p := biquad_process left input
      let r := process_multi channels p.2 right (i + 1) rest
      ((p.1 * p.2.c0 + input * p.2.d0) :: r.1, r.2)
    else
      let q := biquad_process right input
      let r := process_multi channels left q.2 (i + 1) rest
      ((q.1 * q.2.c0 + input * q.2.d0) :: r.1, r.2)

/-- The channel dispatch shared verbatim by hpf_process_buffer,
lpf_process_buffer and parametric_process_buffer (scalar fallback path):
mono through the left lane, stereo pairwise, otherwise the parity fold. -/
def process_buffer_core (left right : BiQuad ℚ) (channels : ℕ)
    (data : List ℚ) : List ℚ × BiQuad ℚ × BiQuad ℚ :=
  if channels = 1 then
    let r := process_channel_run left data
    (r.1, r.2, right)
  else if channels = 2 then
    process_stereo left right data
  else
    process_multi channels left right 0 data

/-- hpf_process_buffer of hpf.c including its null guards: a null filter, a
null buffer or a null data pointer returns without touching anything. -/
def hpf_process_buffer :
    Option HPFFilter → Option AudioBuffer →
    Option HPFFilter × Option AudioBuffer
  | none, b => (none, b)
  | some h, none => (some h, none)
  | some h, some b =>
    match b.data with
    | none => (some h, some b)
    | some d =>
      let r := process_buffer_core h.left h.right b.channels d
      (some { h with left := r.2.1, right := r.2.2 },
       some { b with data := some r.1 })

/-- lpf_process_buffer of lpf.c including its null guards. -/
def lpf_process_buffer :
    Option LPFFilter → Option AudioBuffer →
    Option LPFFilter × Option AudioBuffer
  | none, b => (none, b)
  | some h, none => (some h, none)
  | some h, some b =>
    match b.data with
    | none => (some h, some b)
    | some d =>
      let r := process_buffer_core h.left h.right b.channels d
      (some { h with left := r.2.1, right := r.2.2 },
       some { b with data := some r.1 })

/-- parametric_process_buffer of parametric.c including its null guards. -/
def parametric_process_buffer :
    Option ParametricFilter → Option AudioBuffer →
    Option ParametricFilter × Option AudioBuffer
  | none, b => (none, b)
  | some h, none => (some h, none)
  | some h, some b =>
    match b.data with
    | none => (some h, some b)
    | some d =>
      let r := process_buffer_core h.left h.right b.channels d
      (some { h with left := r.2.1, right := r.2.2 },
       some { b with data := some r.1 })

/-- The lane predicate stated by the specification of the N-channel case:
the logical channel of sample i is i mod N and the physical lane is chosen
by the parity of that channel index (true means lane 0). -/
def spec_lane0 (channels i : ℕ) : Bool := i % channels % 2 = 0

/-- The subsequence of samples that the specification assigns to one lane:
keep the elements whose index (counted from i) maps to lane 0 when
keepLane0 is true, to lane 1 otherwise. -/
def spec_select (channels : ℕ) (keepLane0 : Bool) :
    ℕ → List ℚ → List ℚ
  | _, [] => []
  | i, x :: xs =>
    if spec_lane0 channels i = keepLane0 then
      x :: spec_select channels keepLane0 (i + 1) xs
    else
      spec_select channels keepLane0 (i + 1) xs

/-- Reassembly of the two per-lane output streams back into buffer order,
driven by the same lane predicate. -/
def spec_weave (channels : ℕ) :
    ℕ → List ℚ → List ℚ → List ℚ → List ℚ
  | _, [], _, _ => []
  | i, _ :: ds, ls, rs =>
    if spec_lane0 channels i then
      ls.headD 0 :: spec_weave channels (i + 1) ds ls.tail rs
    else
      rs.headD 0 :: spec_weave channels (i + 1) ds ls rs.tail

/-- Flattening of a list of pairs; ranges over exactly the even-length
lists, used to quantify over odd-length stereo buffers. -/
def flattenPairs : List (ℚ × ℚ) → List ℚ
  | [] => []
  | (a, b) :: ps => a :: b :: flattenPairs ps

/-- calculate_butterworth_coefficients of hpf.c over the reals:
C = tan(pi*freq/sample_rate), the five Butterworth high-pass coefficients,
c0 = 1, d0 = 0, delays flushed.  The input struct is fully overwritten, so
the design is a pure function of sample_rate and freq. -/
noncomputable def hpf_butterworth_coefficients (sample_rate freq : ℝ) : BiQuad ℝ :=
  let C := Real.tan (Real.pi * freq / sample_rate)
  let C_squared := C * C
  let sqrt2 := Real.sqrt 2
  let a0 := 1 / (1 + sqrt2 * C + C_squared)
  { a0 := a0
    a1 := -2 * a0
    a2 := a0
    b1 := 2 * a0 * (C_squared - 1)
    b2 := a0 * (1 - sqrt2 * C + C_squared)
    c0 := 1
    d0 := 0
    xz1 := 0
    xz2 := 0
    yz1 := 0
    yz2 := 0 }

/-- calculate_butterworth_coefficients of lpf.c over the reals:
C = 1/tan(pi*freq/sample_rate) and the low-pass signs on a1 and b1. -/
noncomputable def lpf_butterworth_coefficients (sample_rate freq : ℝ) : BiQuad ℝ :=
  let C := 1 / Real.tan (Real.pi * freq / sample_rate)
  let C_squared := C * C
  let sqrt2 := Real.sqrt 2
  let a0 := 1 / (1 + sqrt2 * C + C_squared)
  { a0 := a0
    a1 := 2 * a0
    a2 := a0
    b1 := 2 * a0 * (1 - C_squared)
    b2 := a0 * (1 - sqrt2 * C + C_squared)
    c0 := 1
    d0 := 0
    xz1 := 0
    xz2 := 0
    yz1 := 0
    yz2 := 0 }

/-- The boost branch (gain >= 0) of calculate_parametric_coefficients of
parametric.c, with the shared intermediates computed exactly as in the
source. -/
noncomputable def parametric_boost (sample_rate freq gain q : ℝ) : BiQuad ℝ :=
  let K := Real.tan (Real.pi * freq / sample_rate)
  let V0 := Real.rpow 10 (gain / 20)
  let K_squared := K * K
  let D0 := 1 + (1 / q) * K + K_squared
  let A := 1 + (V0 / q) * K + K_squared
  let B := 2 * (K_squared - 1)
  let G := 1 - (V0 / q) * K + K_squared
  let D := 1 - (1 / q) * K + K_squared
  { a0 := A / D0
    a1 := B / D0
    a2 := G / D0
    b1 := B / D0
    b2 := D / D0
    c0 := 1
    d0 := 0
    xz1 := 0
    xz2 := 0
    yz1 := 0
    yz2 := 0 }

/-- The cut branch (gain < 0) of calculate_parametric_coefficients of
parametric.c. -/
noncomputable def parametric_cut (sample_rate freq gain q : ℝ) : BiQuad ℝ :=
  let K := Real.tan (Real.pi * freq / sample_rate)
  let V0 := Real.rpow 10 (gain / 20)
  let K_squared := K * K
  let E0 := 1 + (1 / (V0 * q)) * K + K_squared
  let D0 := 1 + (1 / q) * K + K_squared
  let B := 2 * (K_squared - 1)
  let D := 1 - (1 / q) * K + K_squared
  let E := 1 - (1 / (V0 * q)) * K + K_squared
  { a0 := D0 / E0
    a1 := B / E0
    a2 := D / E0
    b1 := B / E0
    b2 := E / E0
    c0 := 1
    d0 := 0
    xz1 := 0
    xz2 := 0
    yz1 := 0
    yz2 := 0 }

/-- calculate_parametric_coefficients of parametric.c: boost branch when
gain >= 0, cut branch otherwise; both branches end by setting c0 = 1,
d0 = 0 and flushing the delays (already part of the branch records). -/
noncomputable def calculate_parametric_coefficients (sample_rate freq gain q : ℝ) :
    BiQuad ℝ :=
  if 0 ≤ gain then parametric_boost sample_rate freq gain q
  else parametric_cut sample_rate freq gain q

/-- An all-zero biquad with the default mix coefficients; concrete base
state for witnesses and counterexamples. -/
def zeroBq : BiQuad ℚ :=
  { a0 := 0, a1 := 0, a2 := 0, b1 := 0, b2 := 0, c0 := 1, d0 := 0,
    xz1 := 0, xz2 := 0, yz1 := 0, yz2 := 0 }

/-- A concrete doubling biquad (a0 = 2, everything else zero, full wet). -/
def doubleBq : BiQuad ℚ := { zeroBq with a0 := 2 }

/-- A concrete filter state whose second output differs between the scalar
reference and the MLIR wrappers: a0 = 1 feeds the input straight into yn
and b1 = -10^40 amplifies the stored yz1 on the next step. -/
def amplifyBq : BiQuad ℚ := { zeroBq with a0 := 1, b1 := -(10 ^ 40) }

/-- The input sequence of the divergence scenario: a first sample in the
open denormal interval (0, FLT_MIN_PLUS), then a zero. -/
def denormInputs : List ℚ := [1 / 10 ^ 39, 0]

/-- A concrete high-pass filter instance whose left lane doubles its input;
used to exercise the stereo dispatch on an odd-length buffer. -/
def cexHpf : HPFFilter := { left := doubleBq, right := zeroBq, frequency := 100 }

/-- A concrete 2-channel buffer with an odd total sample count (one
sample). -/
def cexBuf : AudioBuffer := { data := some [1], sample_rate := 44100, channels := 2 }

/-- The two sequential underflow checks of biquad_process coincide with the
single clamp condition stated by the specification. -/
theorem denorm_clamp_eq (y : ℚ) :
    (if (if y > 0 ∧ y < FLT_MIN_PLUS then 0 else y) < 0 ∧
        (if y > 0 ∧ y < FLT_MIN_PLUS then (0 : ℚ) else y) > FLT_MIN_MINUS then 0
     else (if y > 0 ∧ y < FLT_MIN_PLUS then 0 else y)) =
    (if (0 < y ∧ y < 1175494351 / 10 ^ 47) ∨
        (-(1175494351 / 10 ^ 47) < y ∧ y < 0) then 0 else y) := by
  simp only [FLT_MIN_PLUS, FLT_MIN_MINUS, gt_iff_lt]
  by_cases h1 : 0 < y ∧ y < 1175494351 / 10 ^ 47
  · simp only [if_pos h1, if_pos (Or.inl h1)]
    simp
  · simp only [if_neg h1]
    by_cases h2 : y < 0 ∧ -(1175494351 / 10 ^ 47) < y
    · rw [if_pos h2, if_pos (Or.inr ⟨h2.2, h2.1⟩)]
    · have hr : ¬((0 < y ∧ y < 1175494351 / 10 ^ 47) ∨
          (-(1175494351 / 10 ^ 47) < y ∧ y < 0)) := by
        rintro (hc | ⟨ha, hb⟩)
        · exact h1 hc
        · exact h2 ⟨hb, ha⟩
      rw [if_neg h2, if_neg hr]

/-- C1: biquad_process computes yn from the recurrence, replaces it with
exactly 0 on either open denormal interval, updates the four delays
(yz2 from the old yz1, yz1 from the post-clamp yn, xz2 from the old xz1,
xz1 from the input), leaves all seven coefficients unchanged and returns
the post-clamp yn. -/
theorem c1_biquad_process_step (bq : BiQuad ℚ) (x : ℚ) :
    (biquad_process bq x).1 =
      (if (0 < bq.a0 * x + bq.a1 * bq.xz1 + bq.a2 * bq.xz2 -
             bq.b1 * bq.yz1 - bq.b2 * bq.yz2 ∧
           bq.a0 * x + bq.a1 * bq.xz1 + bq.a2 * bq.xz2 -
             bq.b1 * bq.yz1 - bq.b2 * bq.yz2 < 1175494351 / 10 ^ 47) ∨
          (-(1175494351 / 10 ^ 47) < bq.a0 * x + bq.a1 * bq.xz1 +
             bq.a2 * bq.xz2 - bq.b1 * bq.yz1 - bq.b2 * bq.yz2 ∧
           bq.a0 * x + bq.a1 * bq.xz1 + bq.a2 * bq.xz2 -
             bq.b1 * bq.yz1 - bq.b2 * bq.yz2 < 0)
       then 0
       else bq.a0 * x + bq.a1 * bq.xz1 + bq.a2 * bq.xz2 -
              bq.b1 * bq.yz1 - bq.b2 * bq.yz2) ∧
    (biquad_process bq x).2 =
      { a0 := bq.a0, a1 := bq.a1, a2 := bq.a2, b1 := bq.b1, b2 := bq.b2,
        c0 := bq.c0, d0 := bq.d0,
        xz1 := x, xz2 := bq.xz1,
        yz1 := (biquad_process bq x).1, yz2 := bq.yz1 } := by
  have h : (biquad_process bq x).1 =
      (if (0 < bq.a0 * x + bq.a1 * bq.xz1 + bq.a2 * bq.xz2 -
             bq.b1 * bq.yz1 - bq.b2 * bq.yz2 ∧
           bq.a0 * x + bq.a1 * bq.xz1 + bq.a2 * bq.xz2 -
             bq.b1 * bq.yz1 - bq.b2 * bq.yz2 < 1175494351 / 10 ^ 47) ∨
          (-(1175494351 / 10 ^ 47) < bq.a0 * x + bq.a1 * bq.xz1 +
             bq.a2 * bq.xz2 - bq.b1 * bq.yz1 - bq.b2 * bq.yz2 ∧
           bq.a0 * x + bq.a1 * bq.xz1 + bq.a2 * bq.xz2 -
             bq.b1 * bq.yz1 - bq.b2 * bq.yz2 < 0)
       then 0
       else bq.a0 * x + bq.a1 * bq.xz1 + bq.a2 * bq.xz2 -
              bq.b1 * bq.yz1 - bq.b2 * bq.yz2) :=
    denorm_clamp_eq _
  exact ⟨h, rfl⟩

/-- C10: biquad_process with a null (absent) unit returns the input
unchanged and mutates no state. -/
theorem c10_null_unit_identity (x : ℚ) :
    biquad_process_opt none x = (x, none) := rfl

/-- The shared dispatch is a no-op on an empty sample list, whatever the
channel count. -/
theorem process_buffer_core_nil (left right : BiQuad ℚ) (channels : ℕ) :
    process_buffer_core left right channels [] = ([], left, right) := by
  unfold process_buffer_core
  split_ifs <;> rfl

/-- C9: a null instance, a null buffer, a buffer with a null data pointer,
or a zero-length buffer makes each of the three process_buffer entry points
a silent no-op: nothing raised, buffer and both lanes untouched. -/
theorem c9_process_buffer_null_noop :
    (∀ b, hpf_process_buffer none b = (none, b)) ∧
    (∀ h, hpf_process_buffer (some h) none = (some h, none)) ∧
    (∀ h sr ch, hpf_process_buffer (some h) (some ⟨none, sr, ch⟩) =
      (some h, some ⟨none, sr, ch⟩)) ∧
    (∀ h sr ch, hpf_process_buffer (some h) (some ⟨some [], sr, ch⟩) =
      (some h, some ⟨some [], sr, ch⟩)) ∧
    (∀ b, lpf_process_buffer none b = (none, b)) ∧
    (∀ h, lpf_process_buffer (some h) none = (some h, none)) ∧
    (∀ h sr ch, lpf_process_buffer (some h) (some ⟨none, sr, ch⟩) =
      (some h, some ⟨none, sr, ch⟩)) ∧
    (∀ h sr ch, lpf_process_buffer (some h) (some ⟨some [], sr, ch⟩) =
      (some h, some ⟨some [], sr, ch⟩)) ∧
    (∀ b, parametric_process_buffer none b = (none, b)) ∧
    (∀ h, parametric_process_buffer (some h) none = (some h, none)) ∧
    (∀ h sr ch, parametric_process_buffer (some h) (some ⟨none, sr, ch⟩) =
      (some h, some ⟨none, sr, ch⟩)) ∧
    (∀ h sr ch, parametric_process_buffer (some h) (some ⟨some [], sr, ch⟩) =
      (some h, some ⟨some [], sr, ch⟩)) := by
  refine ⟨fun b => rfl, fun h => rfl, fun h sr ch => rfl, fun h sr ch => ?_,
          fun b => rfl, fun h => rfl, fun h sr ch => rfl, fun h sr ch => ?_,
          fun b => rfl, fun h => rfl, fun h sr ch => rfl, fun h sr ch => ?_⟩ <;>
    simp [hpf_process_buffer, lpf_process_buffer, parametric_process_buffer,
      process_buffer_core_nil]

/-- Running the recurrence over a concatenation splits into the two runs,
threading the state. -/
theorem biquad_run_append (xs : List ℚ) :
    ∀ (bq : BiQuad ℚ) (ys : List ℚ),
      biquad_run bq (xs ++ ys) =
        ((biquad_run bq xs).1 ++ (biquad_run (biquad_run bq xs).2 ys).1,
         (biquad_run (biquad_run bq xs).2 ys).2) := by
  induction xs with
  | nil => intro bq ys; simp [biquad_run]
  | cons x xs ih => intro bq ys; simp [biquad_run, ih]

/-- C7: starting from a flushed unit, after processing any sequence with at
least two samples, xz1/xz2 hold the two most recent raw inputs and yz1/yz2
the two most recent returned (post-clamp) outputs, most recent first; the
shape of the statement (an arbitrary prefix ws) makes the invariant stable
under every further call. -/
theorem c7_delay_invariant (bq : BiQuad ℚ)
    (_hflush : bq.xz1 = 0 ∧ bq.xz2 = 0 ∧ bq.yz1 = 0 ∧ bq.yz2 = 0)
    (ws : List ℚ) (x2 x1 : ℚ) :
    ∃ os o2 o1,
      (biquad_run bq (ws ++ [x2, x1])).1 = os ++ [o2, o1] ∧
      (biquad_run bq (ws ++ [x2, x1])).2.xz1 = x1 ∧
      (biquad_run bq (ws ++ [x2, x1])).2.xz2 = x2 ∧
      (biquad_run bq (ws ++ [x2, x1])).2.yz1 = o1 ∧
      (biquad_run bq (ws ++ [x2, x1])).2.yz2 = o2 := by
  rw [biquad_run_append]
  refine ⟨(biquad_run bq ws).1,
    (biquad_process (biquad_run bq ws).2 x2).1,
    (biquad_process (biquad_process (biquad_run bq ws).2 x2).2 x1).1,
    ?_, rfl, rfl, rfl, rfl⟩
  rfl

/-- Closed instantiation of the delay-state invariant at a concrete flushed
unit and the two-sample stream [1, 2]. -/
theorem c7_witness :
    ∃ os o2 o1,
      (biquad_run zeroBq ([] ++ [(1 : ℚ), 2])).1 = os ++ [o2, o1] ∧
      (biquad_run zeroBq ([] ++ [(1 : ℚ), 2])).2.xz1 = 2 ∧
      (biquad_run zeroBq ([] ++ [(1 : ℚ), 2])).2.xz2 = 1 ∧
      (biquad_run zeroBq ([] ++ [(1 : ℚ), 2])).2.yz1 = o1 ∧
      (biquad_run zeroBq ([] ++ [(1 : ℚ), 2])).2.yz2 = o2 :=
  c7_delay_invariant zeroBq ⟨rfl, rfl, rfl, rfl⟩ [] 1 2

/-- C2 refuted: on a 2-channel buffer with an odd total sample count the
final sample is NOT left unprocessed — with a doubling left lane the single
(hence final, even-indexed) sample 1 is overwritten with 2. -/
theorem c2_counterexample :
    (hpf_process_buffer (some cexHpf) (some cexBuf)).2 =
      some { data := some [2], sample_rate := 44100, channels := 2 } ∧
    (2 : ℚ) ≠ 1 := by
  norm_num [hpf_process_buffer, process_buffer_core, process_stereo,
    biquad_process, cexHpf, cexBuf, doubleBq, zeroBq,
    FLT_MIN_PLUS, FLT_MIN_MINUS]

/-- C2 amended: on a 2-channel buffer of odd total length every sample is
processed; the even-indexed prefix pairs go through lanes 0 and 1 as usual,
and the dangling final sample is processed through lane 0 (its slot is
overwritten with the wet/dry mix and the left lane state advances), while
the right lane is untouched by it; only the out-of-range odd companion
index is skipped. -/
theorem c2_odd_final_through_lane0 (ps : List (ℚ × ℚ)) (x : ℚ)
    (left right : BiQuad ℚ) :
    process_stereo left right (flattenPairs ps ++ [x]) =
      ((process_stereo left right (flattenPairs ps)).1 ++
        [(biquad_process (process_stereo left right (flattenPairs ps)).2.1 x).1 *
           (biquad_process (process_stereo left right (flattenPairs ps)).2.1 x).2.c0 +
         x * (biquad_process (process_stereo left right (flattenPairs ps)).2.1 x).2.d0],
       (biquad_process (process_stereo left right (flattenPairs ps)).2.1 x).2,
       (process_stereo left right (flattenPairs ps)).2.2) := by
  induction ps generalizing left right with
  | nil => simp [flattenPairs, process_stereo]
  | cons p ps ih =>
    obtain ⟨a, b⟩ := p
    simp [flattenPairs, process_stereo, ih]

/-- C8 refuted by the code: the scalar reference stores the post-clamp yn
into yz1, while mlir_biquad_process stores the raw yn before clamping only
its return value and the JIT buffer loop never clamps at all.  With
a0 = 1, b1 = -10^40 and inputs [10^-39, 0], the scalar outputs are [0, 0]
but the per-sample JIT path returns [0, 10] and the buffer path writes
[10^-39, 10]; the final yz1 states disagree by 10, far beyond the 1e-10
tolerance of the reference test suite. -/
theorem c8_divergence :
    (biquad_run amplifyBq denormInputs).1 = [0, 0] ∧
    (mlir_run amplifyBq denormInputs).1 = [0, 10] ∧
    (mlir_biquad_process_buffer amplifyBq denormInputs).1 =
      [1 / 10 ^ 39, 10] ∧
    (biquad_run amplifyBq denormInputs).2.yz1 = 0 ∧
    (mlir_run amplifyBq denormInputs).2.yz1 = 10 ∧
    ¬ |(10 : ℚ) - 0| ≤ 1 / 10 ^ 10 := by
  have habs : |(10 : ℚ) - 0| = 10 := by
    rw [sub_zero]
    exact abs_of_nonneg (by norm_num)
  norm_num [biquad_run, mlir_run, mlir_biquad_process,
    mlir_biquad_process_buffer, mlir_buffer_loop, biquad_process,
    amplifyBq, zeroBq, denormInputs, FLT_MIN_PLUS, FLT_MIN_MINUS, habs]

/-- The multi-channel parity fold: each lane sees exactly the subsequence
of samples whose channel index parity selects it, the two lane runs thread
their own delay state, and the output buffer is the two output streams
woven back in buffer order. -/
theorem process_multi_eq_spec (channels : ℕ) (data : List ℚ) :
    ∀ (i : ℕ) (left right : BiQuad ℚ),
      process_multi channels left right i data =
        (spec_weave channels i data
           (process_channel_run left (spec_select channels true i data)).1
           (process_channel_run right (spec_select channels false i data)).1,
         (process_channel_run left (spec_select channels true i data)).2,
         (process_channel_run right (spec_select channels false i data)).2) := by
  induction data with
  | nil =>
    intro i left right
    simp [process_multi, spec_select, spec_weave, process_channel_run]
  | cons x xs ih =>
    intro i left right
    by_cases h : i % channels % 2 = 0
    · have hb : spec_lane0 channels i = true := by
        simp [spec_lane0, h]
      simp only [process_multi, if_pos h, spec_select, spec_weave, hb,
        process_channel_run, ih (i + 1), List.headD_cons, List.tail_cons,
        if_true, if_false, Bool.true_eq_false, Bool.false_eq_true,
        ite_true, ite_false]
    · have hb : spec_lane0 channels i = false := by
        simp [spec_lane0, h]
      simp only [process_multi, if_neg h, spec_select, spec_weave, hb,
        process_channel_run, ih (i + 1), List.headD_cons, List.tail_cons,
        if_true, if_false, Bool.true_eq_false, Bool.false_eq_true,
        ite_true, ite_false]

/-- C6: for channel counts N > 2 the dispatch routes sample i through the
lane given by the parity of its logical channel i mod N, writes back
process(input)*c0 + input*d0, and consequently all even channels share the
left lane's running delay state and all odd channels the right lane's. -/
theorem c6_multichannel_routing (channels : ℕ) (h : 2 < channels)
    (left right : BiQuad ℚ) (data : List ℚ) :
    process_buffer_core left right channels data =
      (spec_weave channels 0 data
         (process_channel_run left (spec_select channels true 0 data)).1
         (process_channel_run right (spec_select channels false 0 data)).1,
       (process_channel_run left (spec_select channels true 0 data)).2,
       (process_channel_run right (spec_select channels false 0 data)).2) := by
  have h1 : channels ≠ 1 := by omega
  have h2 : channels ≠ 2 := by omega
  simp [process_buffer_core, h1, h2, process_multi_eq_spec]

/-- Closed instantiation of the N = 3 routing at a concrete filter pair and
a four-sample buffer. -/
theorem c6_witness :
    process_buffer_core doubleBq zeroBq 3 [1, 2, 3, 4] =
      (spec_weave 3 0 [1, 2, 3, 4]
         (process_channel_run doubleBq (spec_select 3 true 0 [1, 2, 3, 4])).1
         (process_channel_run zeroBq (spec_select 3 false 0 [1, 2, 3, 4])).1,
       (process_channel_run doubleBq (spec_select 3 true 0 [1, 2, 3, 4])).2,
       (process_channel_run zeroBq (spec_select 3 false 0 [1, 2, 3, 4])).2) :=
  c6_multichannel_routing 3 (by norm_num) doubleBq zeroBq [1, 2, 3, 4]

/-- C3: for 0 < f < sample_rate/2 the Butterworth designs produce exactly
the specified coefficient formulas (with C = tan(pi f / sr) for the HPF and
C = 1/tan(pi f / sr) for the LPF), set c0 = 1, d0 = 0 and leave the delay
state flushed. -/
theorem c3_butterworth_design (sample_rate f : ℝ)
    (_h1 : 0 < f) (_h2 : f < sample_rate / 2) :
    ((hpf_butterworth_coefficients sample_rate f).a0 =
       1 / (1 + Real.sqrt 2 * Real.tan (Real.pi * f / sample_rate) +
         Real.tan (Real.pi * f / sample_rate) ^ 2) ∧
     (hpf_butterworth_coefficients sample_rate f).a1 =
       -2 * (hpf_butterworth_coefficients sample_rate f).a0 ∧
     (hpf_butterworth_coefficients sample_rate f).a2 =
       (hpf_butterworth_coefficients sample_rate f).a0 ∧
     (hpf_butterworth_coefficients sample_rate f).b1 =
       2 * (hpf_butterworth_coefficients sample_rate f).a0 *
         (Real.tan (Real.pi * f / sample_rate) ^ 2 - 1) ∧
     (hpf_butterworth_coefficients sample_rate f).b2 =
       (hpf_butterworth_coefficients sample_rate f).a0 *
         (1 - Real.sqrt 2 * Real.tan (Real.pi * f / sample_rate) +
          Real.tan (Real.pi * f / sample_rate) ^ 2) ∧
     (hpf_butterworth_coefficients sample_rate f).c0 = 1 ∧
     (hpf_butterworth_coefficients sample_rate f).d0 = 0 ∧
     (hpf_butterworth_coefficients sample_rate f).xz1 = 0 ∧
     (hpf_butterworth_coefficients sample_rate f).xz2 = 0 ∧
     (hpf_butterworth_coefficients sample_rate f).yz1 = 0 ∧
     (hpf_butterworth_coefficients sample_rate f).yz2 = 0) ∧
    ((lpf_butterworth_coefficients sample_rate f).a0 =
       1 / (1 + Real.sqrt 2 * (1 / Real.tan (Real.pi * f / sample_rate)) +
         (1 / Real.tan (Real.pi * f / sample_rate)) ^ 2) ∧
     (lpf_butterworth_coefficients sample_rate f).a1 =
       2 * (lpf_butterworth_coefficients sample_rate f).a0 ∧
     (lpf_butterworth_coefficients sample_rate f).a2 =
       (lpf_butterworth_coefficients sample_rate f).a0 ∧
     (lpf_butterworth_coefficients sample_rate f).b1 =
       2 * (lpf_butterworth_coefficients sample_rate f).a0 *
         (1 - (1 / Real.tan (Real.pi * f / sample_rate)) ^ 2) ∧
     (lpf_butterworth_coefficients sample_rate f).b2 =
       (lpf_butterworth_coefficients sample_rate f).a0 *
         (1 - Real.sqrt 2 * (1 / Real.tan (Real.pi * f / sample_rate)) +
          (1 / Real.tan (Real.pi * f / sample_rate)) ^ 2) ∧
     (lpf_butterworth_coefficients sample_rate f).c0 = 1 ∧
     (lpf_butterworth_coefficients sample_rate f).d0 = 0 ∧
     (lpf_butterworth_coefficients sample_rate f).xz1 = 0 ∧
     (lpf_butterworth_coefficients sample_rate f).xz2 = 0 ∧
     (lpf_butterworth_coefficients sample_rate f).yz1 = 0 ∧
     (lpf_butterworth_coefficients sample_rate f).yz2 = 0) := by
  refine ⟨⟨?_, ?_, ?_, ?_, ?_, rfl, rfl, rfl, rfl, rfl, rfl⟩,
          ⟨?_, ?_, ?_, ?_, ?_, rfl, rfl, rfl, rfl, rfl, rfl⟩⟩ <;>
    simp only [hpf_butterworth_coefficients, lpf_butterworth_coefficients] <;>
    ring

/-- Closed instantiation of the Butterworth designs at 44100 Hz and a
100 Hz cutoff. -/
theorem c3_witness :
    (hpf_butterworth_coefficients 44100 100).c0 = 1 ∧
    (lpf_butterworth_coefficients 44100 100).a2 =
      (lpf_butterworth_coefficients 44100 100).a0 := by
  obtain ⟨⟨-, -, -, -, -, hc, -, -, -, -, -⟩, -, -, ha, -⟩ :=
    c3_butterworth_design 44100 100 (by norm_num) (by norm_num)
  exact ⟨hc, ha⟩

/-- C4: with K = tan(pi f / sr) and V0 = 10^(g/20) and the specified
intermediates, the parametric design yields the boost quotients when
g >= 0 and the cut quotients when g < 0, always with c0 = 1, d0 = 0 and a
flushed delay state. -/
theorem c4_parametric_design (sample_rate f g q : ℝ) (_hq : 0 < q)
    (K V0 D0 E0 A B G D E : ℝ)
    (hK : K = Real.tan (Real.pi * f / sample_rate))
    (hV0 : V0 = Real.rpow 10 (g / 20))
    (hD0 : D0 = 1 + K / q + K ^ 2)
    (hE0 : E0 = 1 + K / (V0 * q) + K ^ 2)
    (hA : A = 1 + (V0 / q) * K + K ^ 2)
    (hB : B = 2 * (K ^ 2 - 1))
    (hG : G = 1 - (V0 / q) * K + K ^ 2)
    (hD : D = 1 - K / q + K ^ 2)
    (hE : E = 1 - K / (V0 * q) + K ^ 2) :
    (0 ≤ g →
      calculate_parametric_coefficients sample_rate f g q =
        { a0 := A / D0, a1 := B / D0, a2 := G / D0, b1 := B / D0,
          b2 := D / D0, c0 := 1, d0 := 0,
          xz1 := 0, xz2 := 0, yz1 := 0, yz2 := 0 }) ∧
    (g < 0 →
      calculate_parametric_coefficients sample_rate f g q =
        { a0 := D0 / E0, a1 := B / E0, a2 := D / E0, b1 := B / E0,
          b2 := E / E0, c0 := 1, d0 := 0,
          xz1 := 0, xz2 := 0, yz1 := 0, yz2 := 0 }) := by
  subst hK hV0 hD0 hE0 hA hB hG hD hE
  constructor
  · intro hg
    rw [calculate_parametric_coefficients, if_pos hg]
    simp only [parametric_boost, BiQuad.mk.injEq]
    refine ⟨?_, ?_, ?_, ?_, ?_, trivial, trivial, trivial, trivial,
      trivial, trivial⟩ <;> ring
  · intro hg
    rw [calculate_parametric_coefficients, if_neg (not_le.mpr hg)]
    simp only [parametric_cut, BiQuad.mk.injEq]
    refine ⟨?_, ?_, ?_, ?_, ?_, trivial, trivial, trivial, trivial,
      trivial, trivial⟩ <;> ring

/-- Closed instantiation of the parametric design in the boost branch at
44100 Hz, 1000 Hz, +6 dB, Q = 1. -/
theorem c4_witness :
    (calculate_parametric_coefficients 44100 1000 6 1).c0 = 1 := by
  have h := (c4_parametric_design 44100 1000 6 1 (by norm_num)
    _ _ _ _ _ _ _ _ _ rfl rfl rfl rfl rfl rfl rfl rfl rfl).1 (by norm_num)
  rw [h]

/-- C5: at gain 0 the boost branch and the cut branch compute identical
biquad records (so in particular the five recurrence coefficients agree
exactly in real arithmetic). -/
theorem c5_boost_cut_agree_at_zero (sample_rate f q : ℝ) (_hq : 0 < q) :
    parametric_boost sample_rate f 0 q = parametric_cut sample_rate f 0 q := by
  have hV : Real.rpow 10 ((0 : ℝ) / 20) = 1 := by
    rw [zero_div]
    exact Real.rpow_zero 10
  simp only [parametric_boost, parametric_cut, hV, BiQuad.mk.injEq]
  refine ⟨?_, ?_, ?_, ?_, ?_, trivial, trivial, trivial, trivial,
    trivial, trivial⟩ <;> ring

/-- Closed instantiation of the boost/cut agreement at 44100 Hz, 1000 Hz,
Q = 1. -/
theorem c5_witness :
    parametric_boost 44100 1000 0 1 = parametric_cut 44100 1000 0 1 :=
  c5_boost_cut_agree_at_zero 44100 1000 1 (by norm_num)

